import Mathlib

/-!
Verification development for the B3 DI1/DAP curve-collection repository
(`coleta_di.py`, the scrape pipeline, and `coleta_di_fallback.py`, the API
fallback pipeline).  The Python sources are shallowly embedded below:
pure functions become Lean functions, the per-run store mutation becomes an
explicit function on the store (a map from day numbers to entries), raising
code returns `Except`/`Option`, floats are modelled by `ℚ` where the code
only parses and compares and by `ℝ` where the rate formulas (real powers)
appear.  The external `bizdays` calendar is a collaborator assumed correct;
it is modelled as a structure bundling the operations the scripts call with
the contract properties the spec assigns to them.
-/

namespace ColetaDI

/-! ### Python string helpers -/

/-- Whitespace characters recognised by Python's `str.strip` / `\s`
(modelled for the ASCII whitespace actually occurring in the bulletin). -/
def isPyWS (c : Char) : Bool :=
  c == ' ' || c == '\t' || c == '\n' || c == '\r'

/-- Python `s.strip()` on a character list. -/
def pyStrip (cs : List Char) : List Char :=
  ((cs.dropWhile isPyWS).reverse.dropWhile isPyWS).reverse

/-- NFKD normalisation followed by removal of combining marks, as done in
`_norm` (`unicodedata.normalize("NFKD", s)` + drop combining), modelled on
the Latin letters that occur in the bulletin headers; characters without an
accent decomposition are kept unchanged. -/
def stripAccent (c : Char) : Char :=
  match c with
  | 'á' | 'à' | 'â' | 'ã' | 'ä' => 'a'
  | 'Á' | 'À' | 'Â' | 'Ã' | 'Ä' => 'A'
  | 'é' | 'è' | 'ê' | 'ë' => 'e'
  | 'É' | 'È' | 'Ê' | 'Ë' => 'E'
  | 'í' | 'ì' | 'î' | 'ï' => 'i'
  | 'Í' | 'Ì' | 'Î' | 'Ï' => 'I'
  | 'ó' | 'ò' | 'ô' | 'õ' | 'ö' => 'o'
  | 'Ó' | 'Ò' | 'Ô' | 'Õ' | 'Ö' => 'O'
  | 'ú' | 'ù' | 'û' | 'ü' => 'u'
  | 'Ú' | 'Ù' | 'Û' | 'Ü' => 'U'
  | 'ç' => 'c'
  | 'Ç' => 'C'
  | _ => c

/-- `re.sub(r"\s+", " ", s)`: collapse every run of whitespace to one space. -/
def collapseWS : List Char → List Char
  | [] => []
  | [c] => [if isPyWS c then ' ' else c]
  | c :: c' :: cs =>
    if isPyWS c && isPyWS c' then collapseWS (c' :: cs)
    else (if isPyWS c then ' ' else c) :: collapseWS (c' :: cs)

/-- Embedding of `_norm` (coleta_di.py lines 232-240): strip accents,
collapse whitespace runs, strip, uppercase. -/
def norm_str (s : String) : String :=
  String.mk (((pyStrip (collapseWS (s.data.map stripAccent))).map Char.toUpper))

/-- Whether `pre` is a prefix of `l` (character lists). -/
def leadsWith : List Char → List Char → Bool
  | [], _ => true
  | _ :: _, [] => false
  | p :: ps, c :: cs => p == c && leadsWith ps cs

/-- Python `needle in hay` on strings: substring containment. -/
def containsSub (needle : List Char) : List Char → Bool
  | [] => leadsWith needle []
  | c :: cs => leadsWith needle (c :: cs) || containsSub needle cs

/-! ### Numeric cell cleaning (`_clean_numeric`, coleta_di.py lines 242-261) -/

/-- Value of a digit string (used to model Python's `int` on digits). -/
def digitsToNat (cs : List Char) : ℕ :=
  cs.foldl (fun a c => 10 * a + (c.toNat - 48)) 0

/-- Embedding of `pd.to_numeric` on the decimal literals that reach it in
this pipeline: optional sign, an integer part and/or a fractional part
separated by one dot.  (Exponent forms and Python's underscore/whitespace
tolerance do not occur in the bulletin's cells and are not modelled.) -/
def parseDecimalChars (cs : List Char) : Option ℚ :=
  let sb : ℚ × List Char :=
    match cs with
    | '+' :: t => (1, t)
    | '-' :: t => (-1, t)
    | t => (1, t)
  let sign := sb.1
  let body := sb.2
  let intPart := body.takeWhile Char.isDigit
  let rest := body.dropWhile Char.isDigit
  match rest with
  | [] => if intPart.isEmpty then none else some (sign * (digitsToNat intPart : ℚ))
  | '.' :: frac =>
    if frac.all Char.isDigit && !(intPart.isEmpty && frac.isEmpty) then
      some (sign * ((digitsToNat intPart : ℚ) + (digitsToNat frac : ℚ) / (10 ^ frac.length)))
    else none
  | _ => none

/-- Embedding of `_clean_numeric` (string branch; the `int`/`float`
pass-through branch of the source takes already-numeric cells unchanged and
is outside the string pipeline modelled here).  `'99.889,83' ↦ 99889.83`,
`'-'` and `''` map to missing. -/
def clean_numeric (s : String) : Option ℚ :=
  let t := pyStrip s.data
  if t = ['-'] || t = [] then none
  else
    let t1 := if t.contains '.' && t.contains ',' then t.filter (fun c => c ≠ '.') else t
    let t2 := t1.map (fun c => if c == ',' then '.' else c)
    parseDecimalChars t2

/-! ### Calendar dates and the `bizdays` collaborator -/

/-- A calendar date, as produced by `pd.Timestamp(year, month, day).date()`. -/
structure Date where
  year : ℕ
  month : ℕ
  day : ℕ
deriving DecidableEq, Repr

/-- The `bizdays.Calendar` collaborator (spec section 6), generic in the date
representation `α`.  Only the operations the scripts call are modelled,
together with the fixed-point laws of the collaborator contract that the
claims rely on: `following`/`adjust_previous` leave a business day
unchanged. -/
structure BizCalendar (α : Type) where
  isbizday : α → Bool
  following : α → α
  adjust_previous : α → α
  offset_prev : α → α
  bizdays_count : α → α → ℤ
  following_fix : ∀ d, isbizday d = true → following d = d
  adjust_previous_fix : ∀ d, isbizday d = true → adjust_previous d = d

/-- A degenerate calendar in which every day is a business day; used as a
concrete instance when evaluating the theorems below. -/
def allBizdaysZ : BizCalendar ℤ where
  isbizday := fun _ => true
  following := fun d => d
  adjust_previous := fun d => d
  offset_prev := fun d => d - 1
  bizdays_count := fun a b => b - a
  following_fix := fun _ _ => rfl
  adjust_previous_fix := fun _ _ => rfl

/-- The all-business-days calendar over calendar dates. -/
def allBizdaysDate : BizCalendar Date where
  isbizday := fun _ => true
  following := fun d => d
  adjust_previous := fun d => d
  offset_prev := fun d => d
  bizdays_count := fun _ _ => 10
  following_fix := fun _ _ => rfl
  adjust_previous_fix := fun _ _ => rfl

/-! ### Maturity Resolver (`get_maturity_date`, coleta_di.py lines 263-295) -/

/-- The B3 month-code table (`MONTH_CODES`); lookup failure is Python's
`KeyError`, caught by the enclosing `try`. -/
def MONTH_CODES (c : Char) : Option ℕ :=
  match c with
  | 'F' => some 1
  | 'G' => some 2
  | 'H' => some 3
  | 'J' => some 4
  | 'K' => some 5
  | 'M' => some 6
  | 'N' => some 7
  | 'Q' => some 8
  | 'U' => some 9
  | 'V' => some 10
  | 'X' => some 11
  | 'Z' => some 12
  | _ => none

/-- Python `int("20" + year_short)`: succeeds exactly when `year_short` is a
digit string, yielding the decimal value of the concatenation.  (Python's
tolerance for underscores and surrounding whitespace inside `int` is not
modelled; such strings do not occur as maturity codes.) -/
def parse_year (ys : List Char) : Option ℕ :=
  if ys.all Char.isDigit then some (ys.foldl (fun a c => 10 * a + (c.toNat - 48)) 20)
  else none

/-- Number of days of a month (Gregorian), used to model the validity check
`pd.Timestamp(year, month, day)` performs on its day argument. -/
def daysInMonth (y m : ℕ) : ℕ :=
  if m = 2 then (if y % 4 = 0 && (y % 100 ≠ 0 || y % 400 = 0) then 29 else 28)
  else if m = 4 || m = 6 || m = 9 || m = 11 then 30
  else 31

/-- Embedding of `get_maturity_date` (coleta_di.py lines 263-295): decode the
month letter and two-digit year, build the first day of the maturity month,
and adjust it with `calendar.following`.  Every failure inside the `try`
(empty code, unknown letter, non-digit year) is caught and returns `None`. -/
def get_maturity_date (venc_code : String) (cal : BizCalendar Date) : Option Date :=
  match venc_code.data with
  | [] => none
  | c :: rest =>
    match MONTH_CODES c.toUpper with
    | none => none
    | some mo =>
      match parse_year rest with
      | none => none
      | some yr => some (cal.following ⟨yr, mo, 1⟩)

/-- Modelled from the spec: section 4.2 specifies the Maturity Resolver with a
base-day parameter (1 for DI, 15 for DAP); the DAP variant of the pipeline is
part of this repository but not under `src/`, so the parametrised resolver is
modelled from the spec's words.  `get_maturity_date` of `src/coleta_di.py` is
its `base_day = 1` instance (see `maturity_resolver_base_one` below).
An invalid base day makes `pd.Timestamp(year, month, base_day)` raise, which
the enclosing `try` turns into `None`. -/
def get_maturity_date_base (base_day : ℕ) (venc_code : String) (cal : BizCalendar Date) :
    Option Date :=
  match venc_code.data with
  | [] => none
  | c :: rest =>
    match MONTH_CODES c.toUpper with
    | none => none
    | some mo =>
      match parse_year rest with
      | none => none
      | some yr =>
        if 1 ≤ base_day ∧ base_day ≤ daysInMonth yr mo then
          some (cal.following ⟨yr, mo, base_day⟩)
        else none

/-! ### Rate Engine (coleta_di.py line 358, coleta_di_fallback.py line 177) -/

/-- Forward conversion of the scrape path:
`TAXA_ANUAL = (100000 / PU) ** (252 / N) - 1` (coleta_di.py lines 356-360). -/
noncomputable def taxa_from_price (P : ℝ) (N : ℤ) : ℝ :=
  (100000 / P) ^ ((252 : ℝ) / (N : ℝ)) - 1

/-- Inverse conversion of the API fallback path:
`preco_ajuste = 100000.0 / ((1 + taxa_anual) ** (N / 252.0))`
(coleta_di_fallback.py line 177). -/
noncomputable def price_from_taxa (r : ℝ) (N : ℤ) : ℝ :=
  100000 / (1 + r) ^ ((N : ℝ) / (252 : ℝ))

/-! ### Trade-Date Attribution Engine (coleta_di_fallback.py lines 206-221) -/

/-- The cutoff constants `HORA_AJUSTE = 18`, `MINUTO_AJUSTE = 1`. -/
def HORA_AJUSTE : ℕ := 18

def MINUTO_AJUSTE : ℕ := 1

/-- Embedding of the date-decision block of `executar_atualizacao_principal`
(coleta_di_fallback.py lines 206-221): `is_after_close` is
`hour > 18 or (hour == 18 and minute >= 1)`; before the close on a business
day the quote is attributed to `offset(hoje, -1)`, otherwise to
`adjust_previous(hoje)`. -/
def date_to_save {α : Type} (cal : BizCalendar α) (hoje : α) (hour minute : ℕ) : α :=
  let is_bizday_today := cal.isbizday hoje
  let is_after_close :=
    decide (HORA_AJUSTE < hour) || (decide (hour = HORA_AJUSTE) && decide (MINUTO_AJUSTE ≤ minute))
  if is_bizday_today && !is_after_close then cal.offset_prev hoje
  else cal.adjust_previous hoje

/-! ### Raw tables and the Quote Normalizer (coleta_di.py lines 377-464) -/

/-- A raw tabular block as produced by `pd.read_html`: a list of rows of
string cells (every row of one block has the block's column count). -/
structure Table where
  rows : List (List String)
deriving DecidableEq, Repr

/-- `len(df)`: the number of rows. -/
def Table.nrows (t : Table) : ℕ := t.rows.length

/-- `df.shape[1]`: the number of columns. -/
def Table.ncols (t : Table) : ℕ := (t.rows.headD []).length

/-- `df.iloc[0, 0]`: the first cell. -/
def Table.cell00 (t : Table) : String := (t.rows.headD []).headD ("")

/-- `df.shape`. -/
def Table.shape (t : Table) : ℕ × ℕ := (t.nrows, t.ncols)

/-- Embedding of `_looks_like_vencto` (lines 379-386): exactly one column, at
least one row, and the normalised first cell contains "VENCTO". -/
def looks_like_vencto (t : Table) : Bool :=
  t.ncols == 1 && t.nrows != 0 && containsSub ("VENCTO".data) ((norm_str t.cell00).data)

/-- Embedding of `_looks_like_ajuste_block` (lines 388-395): at least 11
columns, at least one row, and the normalised first cell starts with
"AJUSTE ANTER". -/
def looks_like_ajuste_block (t : Table) : Bool :=
  11 ≤ t.ncols && t.nrows != 0 && leadsWith ("AJUSTE ANTER".data) ((norm_str t.cell00).data)

/-- Step 1 of `combine_vencto_and_ajuste` (lines 407-413): the positional
guess at indices 6 and 7.  An out-of-range index raises inside the `try` and
is treated as "no positional candidate". -/
def positional_pair (tables : List Table) : Option (ℕ × ℕ) :=
  match tables[6]?, tables[7]? with
  | some t7, some t8 =>
    if looks_like_vencto t7 && looks_like_ajuste_block t8 && t7.nrows == t8.nrows
    then some (6, 7) else none
  | _, _ => none

/-- The maturity-code candidate indices of the fallback scan (line 417). -/
def vencto_idxs (tables : List Table) : List ℕ :=
  (tables.enum.filter (fun p => looks_like_vencto p.2)).map (fun p => p.1)

/-- The settlement-price candidate indices of the fallback scan (line 418). -/
def ajuste_idxs (tables : List Table) : List ℕ :=
  (tables.enum.filter (fun p => looks_like_ajuste_block p.2)).map (fun p => p.1)

/-- The acceptance test of the scan's inner loop (line 424):
`len(df_v) == len(df_a) and len(df_v) > 0`. -/
def pair_ok (tables : List Table) (i j : ℕ) : Bool :=
  (tables.getD i ⟨[]⟩).nrows == (tables.getD j ⟨[]⟩).nrows
    && (tables.getD i ⟨[]⟩).nrows != 0

/-- Step 2 of `combine_vencto_and_ajuste` (lines 415-428): the nested loop
with the two `break`s takes, for the first maturity candidate that has any
match, its first price candidate with an equal non-zero row count. -/
def scan_pair (tables : List Table) : Option (ℕ × ℕ) :=
  (vencto_idxs tables).findSome? (fun i =>
    ((ajuste_idxs tables).find? (fun j => pair_ok tables i j)).map (fun j => (i, j)))

/-- Table-pair location of `combine_vencto_and_ajuste` (lines 397-439): the
positional guess, then the exhaustive scan; on failure the raised
`ValueError` carries the observed table shapes. -/
def locate_pair (tables : List Table) : Except (List (ℕ × ℕ)) (ℕ × ℕ) :=
  match positional_pair tables with
  | some p => .ok p
  | none =>
    match scan_pair tables with
    | some p => .ok p
    | none => .error (tables.map Table.shape)

/-- The combined table built by `combine_vencto_and_ajuste` (lines 441-464):
each block's first row is promoted to header and dropped from the data, the
maturity column is renamed "VENCTO", and the two blocks are concatenated
column-wise by row position. -/
structure CombinedTable where
  headers : List String
  dataRows : List (List String)
deriving DecidableEq, Repr

/-- Embedding of `combine_vencto_and_ajuste`. -/
def combine_vencto_and_ajuste (tables : List Table) : Except (List (ℕ × ℕ)) CombinedTable :=
  match locate_pair tables with
  | .error shapes => .error shapes
  | .ok (i, j) =>
    let tv := tables.getD i ⟨[]⟩
    let ta := tables.getD j ⟨[]⟩
    .ok ⟨"VENCTO" :: (ta.rows.headD []).tail,
         (tv.rows.tail).zipWith (fun v a => v ++ a) (ta.rows.tail)⟩

/-! ### Scrape-side rate computation (`calculate_di1_rates`, lines 297-375) -/

/-- One row of the final scrape DataFrame (columns VENCTO, AJUSTE_NUM,
TRADE_DATE, MATURITY_DATE, DIAS_UTEIS_N, TAXA_ANUAL).  The settlement price
is kept as the parsed rational; the rate is its real-power value. -/
structure ScrapeContract where
  vencto : String
  ajuste_num : ℚ
  trade_date : Date
  maturity_date : Date
  dias_uteis_n : ℤ
  taxa_anual : ℝ

/-- `str(col).strip().upper()`, used to find the AJUSTE column. -/
def stripUpper (s : String) : String :=
  String.mk ((pyStrip s.data).map Char.toUpper)

/-- Per-row processing of `calculate_di1_rates`: drop rows whose maturity
does not resolve (`dropna(subset=['MATURITY_DATE'])`), rows whose price is
not numeric (NA propagates to TAXA_ANUAL, removed by
`dropna(subset=['TAXA_ANUAL'])` — a negative price likewise yields float NaN
under the fractional power and is removed there), and rows with
`DIAS_UTEIS_N <= 0`; surviving rows carry the annualised rate. -/
noncomputable def calc_row (cal : BizCalendar Date) (trade : Date) (vencto ajuste : String) :
    Option ScrapeContract :=
  match get_maturity_date vencto cal with
  | none => none
  | some md =>
    match clean_numeric ajuste with
    | none => none
    | some pu =>
      let N := cal.bizdays_count trade md
      if pu < 0 then none
      else if 0 < N then
        some ⟨vencto, pu, trade, md, N, taxa_from_price (pu : ℚ) N⟩
      else none

/-- Embedding of `calculate_di1_rates` (lines 297-375) on the combined
table: locate the AJUSTE column by its stripped-uppercased header (raising
if absent), then process each row with `calc_row`; column 0 is VENCTO. -/
noncomputable def calculate_di1_rates (cal : BizCalendar Date) (trade : Date)
    (ct : CombinedTable) : Except String (List ScrapeContract) :=
  match ct.headers.findIdx? (fun h => stripUpper h == "AJUSTE") with
  | none => .error ("Nao foi possivel encontrar a coluna AJUSTE")
  | some idx =>
    .ok (ct.dataRows.filterMap (fun row => calc_row cal trade (row.headD ("")) (row.getD idx (""))))

/-! ### Historical Store Manager

Both `executar_atualizacao_principal` functions operate on the `data`
section of the store, a JSON object keyed by ISO `YYYY-MM-DD` strings.
Calendar days are modelled as integers (day numbers): consecutive days map
to consecutive integers and distinct days to distinct ISO keys, so the
string-keyed dictionary becomes a function `ℤ → Option Entry`.  The loops
write each key at most once and read only the key they write, so the
sequential loop is embedded as a per-key function. -/

/-- A persisted Day Entry, generic in the contract record type. -/
structure Entry (γ : Type) where
  status : String
  contratos : List γ
  erro_msg : Option String
deriving DecidableEq, Repr

/-- `DIAS_HISTORICO` of coleta_di.py. -/
def DIAS_HISTORICO_SCRAPE : ℤ := 30

/-- `DIAS_HISTORICO` of coleta_di_fallback.py. -/
def DIAS_HISTORICO_FALLBACK : ℤ := 90

/-- Membership in the trailing `n`-day window ending at `hoje`
(`pd.date_range(hoje - (n-1) days, hoje)` rendered as ISO keys). -/
def inWindow (n hoje k : ℤ) : Bool :=
  decide (hoje - (n - 1) ≤ k) && decide (k ≤ hoje)

/-- The per-date body of the scrape update loop (coleta_di.py lines
501-534), for a date not yet in the store: non-business days are recorded
as `feriado`; otherwise the acquisition-and-computation chain `acq` (the
composite `get_b3_di1_tables` → `combine_vencto_and_ajuste` →
`calculate_di1_rates` → `formatar_dados_para_json`) either raises — caught
and recorded as `erro_coleta` with the message — or yields the day's
contract list, recorded as `dia_util`. -/
def processa_dia {γ : Type} (cal : BizCalendar ℤ) (acq : ℤ → Except String (List γ))
    (k : ℤ) : Entry γ :=
  if !(cal.isbizday k) then ⟨"feriado", [], none⟩
  else
    match acq k with
    | .error e => ⟨"erro_coleta", [], some e⟩
    | .ok [] => ⟨"dia_util", [], none⟩
    | .ok (c :: cs) => ⟨"dia_util", c :: cs, none⟩

/-- Embedding of the store mutation of coleta_di.py's
`executar_atualizacao_principal` (lines 495-546): for every date of the
trailing 30-day window missing from the store, write the processed entry
(existing entries are skipped unchanged); afterwards prune every key
outside the window. -/
def run_scrape {γ : Type} (cal : BizCalendar ℤ) (acq : ℤ → Except String (List γ))
    (hoje : ℤ) (db : ℤ → Option (Entry γ)) : ℤ → Option (Entry γ) :=
  fun k =>
    if inWindow DIAS_HISTORICO_SCRAPE hoje k then
      match db k with
      | some e => some e
      | none => some (processa_dia cal acq k)
    else none

/-- The tail of `get_b3_di1_tables` (coleta_di.py lines 215-228): the
browser session and `pd.read_html` are collaborators delivering the raw
table list; the function itself raises a `ValueError` when that list is
empty ("No tables found").  Navigation failures raise before this point and
are covered by the `.error` of the environment being modelled upstream. -/
def get_b3_tables (parsed : List Table) : Except String (List Table) :=
  if parsed.isEmpty then .error ("No tables found in the HTML.") else .ok parsed

/-- An output contract object as serialised by `formatar_dados_para_json`
(`codigo` is the instrument prefix concatenated with the maturity code; the
maturity is kept as a date value, serialised to its ISO string on disk). -/
structure ContractJson (δ : Type) where
  codigo : String
  vencimento : δ
  taxa : ℝ
  preco_ajuste : ℝ

/-- `formatar_dados_para_json` of coleta_di.py (lines 78-109) applied to a
final scrape row. -/
noncomputable def formatar_scrape (c : ScrapeContract) : ContractJson Date :=
  ⟨"DI1" ++ c.vencto, c.maturity_date, c.taxa_anual, (c.ajuste_num : ℝ)⟩

/-- The full scrape acquisition chain for one date (the `try` body of lines
519-530): raw tables from the environment `env` (navigation errors and the
empty-table `ValueError` both surface as `.error`), then table combination,
rate computation and JSON formatting.  `dateOf` renders the day number as
the calendar date passed to `calculate_di1_rates`. -/
noncomputable def scrape_acq (calD : BizCalendar Date) (dateOf : ℤ → Date)
    (env : ℤ → Except String (List Table)) (k : ℤ) :
    Except String (List (ContractJson Date)) :=
  match env k with
  | .error e => .error e
  | .ok tables =>
    match get_b3_tables tables with
    | .error e => .error e
    | .ok tables' =>
      match combine_vencto_and_ajuste tables' with
      | .error _ => .error ("Could not locate matching VENCTO and AJUSTE ANTER tables with equal rows.")
      | .ok ct =>
        match calculate_di1_rates calD (dateOf k) ct with
        | .error e => .error e
        | .ok rows => .ok (rows.map formatar_scrape)

/-! ### Fallback (API) store manager (coleta_di_fallback.py lines 195-304) -/

/-- One row of the fallback DataFrame built by `fetch_and_process_b3_api`. -/
structure FbContract where
  vencto : String
  maturity : ℤ
  taxa : ℝ
  preco : ℝ
  trade : ℤ

/-- Ascending order on maturity dates, the key of
`sort_values(by='MATURITY_DATE', ascending=True)`. -/
def leMat (a b : FbContract) : Prop := a.maturity ≤ b.maturity

instance : DecidableRel leMat := fun a b => Int.decLe a.maturity b.maturity

instance : IsTotal FbContract leMat := ⟨fun a b => Int.le_total a.maturity b.maturity⟩

instance : IsTrans FbContract leMat := ⟨fun _ _ _ h h' => le_trans h h'⟩

/-- `formatar_dados_para_json` of coleta_di_fallback.py (lines 82-106). -/
noncomputable def formatar_dados_para_json (pfx : String) (l : List FbContract) :
    List (ContractJson ℤ) :=
  l.map (fun c => ⟨pfx ++ c.vencto, c.maturity, c.taxa, c.preco⟩)

/-- The Day Entry written by Etapa 2 of the fallback run (lines 237-264) when
the target date is absent: an exception during the fetch is recorded as
`erro_coleta` with its message; an empty DataFrame (request failure, missing
`Scty` array, or no surviving contract) as `erro_coleta` with message
"Vazio"; otherwise the rows are sorted ascending by maturity date, formatted
with the asset prefix, and recorded as `dia_util`. -/
noncomputable def fallback_entry (pfx : String) (api : Except String (List FbContract)) :
    Entry (ContractJson ℤ) :=
  match api with
  | .error e => ⟨"erro_coleta", [], some e⟩
  | .ok [] => ⟨"erro_coleta", [], some "Vazio"⟩
  | .ok (c :: cs) =>
    ⟨"dia_util", formatar_dados_para_json pfx (List.insertionSort leMat (c :: cs)), none⟩

/-- Etapa 2 of the fallback run (lines 237-264): if the attributed date
`ds` is absent from the store, write the collected entry there; otherwise
leave the store unchanged. -/
noncomputable def fallback_etapa2 (pfx : String) (api : Except String (List FbContract))
    (ds : ℤ) (db : ℤ → Option (Entry (ContractJson ℤ))) : ℤ → Option (Entry (ContractJson ℤ)) :=
  fun k =>
    match db ds with
    | some _ => db k
    | none => if k = ds then some (fallback_entry pfx api) else db k

/-- Etapas 3-4 of the fallback run (lines 268-282): fill every missing
non-business day of the trailing 90-day window with a `feriado` entry. -/
noncomputable def fallback_fill (cal : BizCalendar ℤ) (hoje : ℤ)
    (db1 : ℤ → Option (Entry (ContractJson ℤ))) : ℤ → Option (Entry (ContractJson ℤ)) :=
  fun k =>
    if (db1 k).isNone && !(cal.isbizday k) && inWindow DIAS_HISTORICO_FALLBACK hoje k then
      some ⟨"feriado", [], none⟩
    else db1 k

/-- Embedding of the per-asset store mutation of coleta_di_fallback.py's
`executar_atualizacao_principal` (lines 224-299): Etapa 2 writes the
collected entry at the attributed date if absent; Etapas 3-4 fill every
remaining missing non-business day of the trailing 90-day window with
`feriado`; Etapa 5 prunes every key outside the window. -/
noncomputable def run_fallback (cal : BizCalendar ℤ) (pfx : String) (hoje : ℤ)
    (hour minute : ℕ) (api : Except String (List FbContract))
    (db : ℤ → Option (Entry (ContractJson ℤ))) : ℤ → Option (Entry (ContractJson ℤ)) :=
  fun k =>
    if inWindow DIAS_HISTORICO_FALLBACK hoje k then
      fallback_fill cal hoje
        (fallback_etapa2 pfx api (date_to_save cal hoje hour minute) db) k
    else none

/-! ### Store loading (`carregar_database`, coleta_di.py lines 44-68 and
coleta_di_fallback.py lines 56-72; the two functions are identical up to
logging) -/

/-- A parsed JSON value (`json.load` result). -/
inductive Json where
  | null
  | jbool (b : Bool)
  | jnum (q : ℚ)
  | jstr (s : String)
  | jarr (elems : List Json)
  | jobj (fields : List (String × Json))

/-- Python `==` between a string and a JSON value (a string equals only an
equal string). -/
def Json.isStrEq (x : Json) (key : String) : Bool :=
  match x with
  | .jstr s => s == key
  | _ => false

/-- Python `key in value`: key membership for a dict, element equality for a
list, substring for a string; a `TypeError` for the remaining types. -/
def pyContains (v : Json) (key : String) : Except String Bool :=
  match v with
  | .jobj kvs => .ok (kvs.any (fun kv => kv.1 == key))
  | .jarr xs => .ok (xs.any (fun x => x.isStrEq key))
  | .jstr s => .ok (containsSub key.data s.data)
  | _ => .error ("TypeError: argument of type is not iterable")

/-- Python truthiness of a JSON value. -/
def pyTruthy (v : Json) : Bool :=
  match v with
  | .null => false
  | .jbool b => b
  | .jnum q => q ≠ 0
  | .jstr s => s ≠ ""
  | .jarr xs => !xs.isEmpty
  | .jobj kvs => !kvs.isEmpty

/-- `re.match(r"^\d{4}-\d{2}-\d{2}$", k)` on a key (the `$`-with-trailing-
newline quirk of Python's `re` does not arise for JSON object keys written
by this program and is not modelled). -/
def isDateKey (s : String) : Bool :=
  match s.data with
  | [a, b, c, d, s1, e, f, s2, g, h] =>
    a.isDigit && b.isDigit && c.isDigit && d.isDigit && s1 == '-'
      && e.isDigit && f.isDigit && s2 == '-' && g.isDigit && h.isDigit
  | _ => false

/-- The default store structure returned for a missing or corrupted file. -/
def defaultDb : Json := .jobj [("metadata", .jobj []), ("data", .jobj [])]

/-- Embedding of `carregar_database`.  The argument is `none` when the file
is absent or `json.load` raised `JSONDecodeError` (both handled paths), and
`some v` for a parsed value `v`.  The body mirrors the source: the
wrapped-format check `"metadata" in data and "data" in data` (short-circuit,
raising `TypeError` on non-container values), then the legacy-format check
`data and all(re.match(...) for k in data.keys())` — whose `.keys()` call
raises `AttributeError` when the truthy value is not a dict — then the
reset to the default structure. -/
def carregar_database (contents : Option Json) : Except String Json :=
  match contents with
  | none => .ok defaultDb
  | some data =>
    match pyContains data ("metadata") with
    | .error e => .error e
    | .ok m =>
      match (if m then pyContains data ("data") else .ok false) with
      | .error e => .error e
      | .ok d =>
        if m && d then .ok data
        else if pyTruthy data then
          match data with
          | .jobj kvs =>
            if kvs.all (fun kv => isDateKey kv.1) then
              .ok (.jobj [("metadata", .jobj []), ("data", .jobj kvs)])
            else .ok defaultDb
          | _ => .error ("AttributeError: object has no attribute keys")
        else .ok defaultDb

/-! ### Helper lemmas -/

lemma daysInMonth_ge (y m : ℕ) : 28 ≤ daysInMonth y m := by
  unfold daysInMonth
  split
  · split <;> omega
  · split <;> omega

/-! ### Claim theorems -/

/-- C3: for every price `P > 0` and business-day count `N > 0`, the forward
conversion `rate = (100000 / P) ^ (252 / N) − 1` followed by the inverse
conversion `price = 100000 / (1 + rate) ^ (N / 252)` returns `P` exactly over
the reals, and for every rate `r` with `1 + r > 0` the inverse followed by
the forward conversion returns `r`. -/
theorem rate_round_trip (P r : ℝ) (N : ℤ) (hP : 0 < P) (hN : 0 < N) (hr : 0 < 1 + r) :
    price_from_taxa (taxa_from_price P N) N = P ∧
    taxa_from_price (price_from_taxa r N) N = r := by
  have hNne : (N : ℝ) ≠ 0 := by
    exact_mod_cast (by omega : N ≠ 0)
  have hx : (0 : ℝ) < 100000 / P := by positivity
  constructor
  · unfold price_from_taxa taxa_from_price
    have h1 : (1 : ℝ) + ((100000 / P) ^ ((252 : ℝ) / (N : ℝ)) - 1)
        = (100000 / P) ^ ((252 : ℝ) / (N : ℝ)) := by ring
    rw [h1, ← Real.rpow_mul (le_of_lt hx)]
    have h2 : (252 : ℝ) / (N : ℝ) * ((N : ℝ) / 252) = 1 := by
      field_simp
    rw [h2, Real.rpow_one]
    field_simp
  · unfold taxa_from_price price_from_taxa
    have hpow : (0 : ℝ) < (1 + r) ^ ((N : ℝ) / (252 : ℝ)) :=
      Real.rpow_pos_of_pos hr _
    have h2 : (100000 : ℝ) / (100000 / (1 + r) ^ ((N : ℝ) / (252 : ℝ)))
        = (1 + r) ^ ((N : ℝ) / (252 : ℝ)) := by
      rw [div_div_eq_mul_div, mul_div_assoc, mul_comm, div_mul_eq_mul_div,
        mul_div_cancel_right₀ _ (by norm_num : (100000 : ℝ) ≠ 0)]
    rw [h2, ← Real.rpow_mul (le_of_lt hr)]
    have h3 : (N : ℝ) / (252 : ℝ) * ((252 : ℝ) / (N : ℝ)) = 1 := by
      field_simp
    rw [h3, Real.rpow_one]
    ring

/-- Witness for `rate_round_trip` at `P = 100000`, `N = 252`, `r = 1`. -/
theorem rate_round_trip_witness :
    price_from_taxa (taxa_from_price 100000 252) 252 = 100000 ∧
    taxa_from_price (price_from_taxa 1 252) 252 = 1 :=
  rate_round_trip 100000 1 252 (by norm_num) (by norm_num) (by norm_num)

/-- C4: with minutes below 60, the attribution of the fallback run maps the
quote to `offset(today, -1)` exactly on the branch "today is a business day
and the time is strictly before 18:01" (equivalently `60*hour + minute <
1081`), and otherwise to `adjust_previous(today)`, the most recent business
day on or before today; in particular at 18:00 on a business day it yields
the previous business day, and at exactly 18:01 it yields today itself when
today is a business day and `adjust_previous(today)` otherwise. -/
theorem attribution_engine {α : Type} (cal : BizCalendar α) (hoje : α) (h m : ℕ)
    (hm : m < 60) :
    ((cal.isbizday hoje = true ∧ 60 * h + m < 1081) →
        date_to_save cal hoje h m = cal.offset_prev hoje)
    ∧ (¬(cal.isbizday hoje = true ∧ 60 * h + m < 1081) →
        date_to_save cal hoje h m = cal.adjust_previous hoje)
    ∧ (cal.isbizday hoje = true → date_to_save cal hoje 18 0 = cal.offset_prev hoje)
    ∧ (cal.isbizday hoje = true → date_to_save cal hoje 18 1 = hoje)
    ∧ (cal.isbizday hoje = false → date_to_save cal hoje 18 1 = cal.adjust_previous hoje) := by
  have key : ∀ h' m' : ℕ, m' < 60 →
      date_to_save cal hoje h' m' =
        (if cal.isbizday hoje = true ∧ 60 * h' + m' < 1081 then cal.offset_prev hoje
         else cal.adjust_previous hoje) := by
    intro h' m' hm'
    unfold date_to_save HORA_AJUSTE MINUTO_AJUSTE
    rcases hb : cal.isbizday hoje with _ | _
    · simp [hb]
    · rcases hlt : decide (18 < h') with _ | _
      · rcases heq : decide (h' = 18) with _ | _
        · have : 60 * h' + m' < 1081 := by
            have := of_decide_eq_false hlt
            have := of_decide_eq_false heq
            omega
          simp [hb, hlt, heq, this]
        · rcases hge : decide (1 ≤ m') with _ | _
          · have : 60 * h' + m' < 1081 := by
              have := of_decide_eq_true heq
              have := of_decide_eq_false hge
              omega
            simp [hb, hlt, heq, hge, this]
          · have : ¬(60 * h' + m' < 1081) := by
              have := of_decide_eq_true heq
              have := of_decide_eq_true hge
              omega
            simp [hb, hlt, heq, hge, this]
      · have : ¬(60 * h' + m' < 1081) := by
          have := of_decide_eq_true hlt
          omega
        simp [hb, hlt, this]
  refine ⟨?_, ?_, ?_, ?_, ?_⟩
  · intro hc
    rw [key h m hm, if_pos hc]
  · intro hc
    rw [key h m hm, if_neg hc]
  · intro hb
    rw [key 18 0 (by omega), if_pos ⟨hb, by omega⟩]
  · intro hb
    have hno : ¬(cal.isbizday hoje = true ∧ 60 * 18 + 1 < 1081) := by
      intro hc
      omega
    rw [key 18 1 (by omega), if_neg hno, cal.adjust_previous_fix hoje hb]
  · intro hb
    have hno : ¬(cal.isbizday hoje = true ∧ 60 * 18 + 1 < 1081) := by
      intro hc
      rw [hb] at hc
      exact absurd hc.1 (by simp)
    rw [key 18 1 (by omega), if_neg hno]

/-- Witness for `attribution_engine`: on the all-business-days calendar over
`ℤ` with today `0`, at 18:00 the attribution yields the previous business
day `-1`, and at 18:01 it yields today `0`. -/
theorem attribution_engine_witness :
    date_to_save allBizdaysZ 0 18 0 = allBizdaysZ.offset_prev 0 ∧
    date_to_save allBizdaysZ 0 18 1 = 0 :=
  ⟨(attribution_engine allBizdaysZ 0 18 0 (by omega)).2.2.1 rfl,
   (attribution_engine allBizdaysZ 0 18 1 (by omega)).2.2.2.1 rfl⟩

lemma daysInMonth_le (y m : ℕ) : daysInMonth y m ≤ 31 := by
  unfold daysInMonth
  split
  · split <;> omega
  · split <;> omega

/-- C2: for every maturity code built from a month letter and two digits and
every valid base day, the resolver returns `following(date(2000+YY, month,
base_day))`, which is the base date itself whenever that date is a business
day (in particular the 15th exactly, for base day 15); unparsable codes
(empty, unknown letter, non-digit year) and invalid base days return `none`;
and the `src` function `get_maturity_date` is the base-day-1 instance of the
parametrised resolver. -/
theorem maturity_resolver (cal : BizCalendar Date) (c d1 d2 : Char) (base_day mo : ℕ)
    (hm : MONTH_CODES c.toUpper = some mo) (h1 : d1.isDigit = true) (h2 : d2.isDigit = true)
    (hbd : 1 ≤ base_day ∧ base_day ≤ 28) :
    (get_maturity_date_base base_day ⟨[c, d1, d2]⟩ cal
        = some (cal.following ⟨2000 + (10 * (d1.toNat - 48) + (d2.toNat - 48)), mo, base_day⟩))
    ∧ (cal.isbizday ⟨2000 + (10 * (d1.toNat - 48) + (d2.toNat - 48)), mo, base_day⟩ = true →
        get_maturity_date_base base_day ⟨[c, d1, d2]⟩ cal
          = some ⟨2000 + (10 * (d1.toNat - 48) + (d2.toNat - 48)), mo, base_day⟩)
    ∧ (∀ s : String,
        (s.data = [] ∨ MONTH_CODES ((s.data.headD ' ').toUpper) = none
            ∨ (∃ ch ∈ s.data.tail, ch.isDigit = false)) →
        get_maturity_date_base base_day s cal = none)
    ∧ (∀ (s : String) (bd : ℕ), bd = 0 ∨ 32 ≤ bd → get_maturity_date_base bd s cal = none)
    ∧ (∀ s : String, get_maturity_date s cal = get_maturity_date_base 1 s cal) := by
  have hpy : parse_year [d1, d2] = some (2000 + (10 * (d1.toNat - 48) + (d2.toNat - 48))) := by
    unfold parse_year
    rw [if_pos (by simp [h1, h2])]
    simp only [List.foldl]
    congr 1
    omega
  have hdim : 1 ≤ base_day ∧
      base_day ≤ daysInMonth (2000 + (10 * (d1.toNat - 48) + (d2.toNat - 48))) mo :=
    ⟨hbd.1, le_trans hbd.2 (le_trans (by omega) (daysInMonth_ge _ _))⟩
  have hmain : get_maturity_date_base base_day ⟨[c, d1, d2]⟩ cal
      = some (cal.following ⟨2000 + (10 * (d1.toNat - 48) + (d2.toNat - 48)), mo, base_day⟩) := by
    show (match MONTH_CODES c.toUpper with
      | none => none
      | some mo' =>
        match parse_year [d1, d2] with
        | none => none
        | some yr =>
          if 1 ≤ base_day ∧ base_day ≤ daysInMonth yr mo' then
            some (cal.following ⟨yr, mo', base_day⟩)
          else none) = _
    rw [hm]
    show (match parse_year [d1, d2] with
      | none => none
      | some yr =>
        if 1 ≤ base_day ∧ base_day ≤ daysInMonth yr mo then
          some (cal.following ⟨yr, mo, base_day⟩)
        else none) = _
    rw [hpy]
    show (if 1 ≤ base_day ∧
        base_day ≤ daysInMonth (2000 + (10 * (d1.toNat - 48) + (d2.toNat - 48))) mo then
          some (cal.following ⟨2000 + (10 * (d1.toNat - 48) + (d2.toNat - 48)), mo, base_day⟩)
        else none) = _
    rw [if_pos hdim]
  refine ⟨hmain, ?_, ?_, ?_, ?_⟩
  · intro hb
    rw [hmain, cal.following_fix _ hb]
  · intro s hbad
    cases hl : s.data with
    | nil =>
      unfold get_maturity_date_base
      rw [hl]
    | cons c' rest =>
      rcases hbad with hnil | hmc | ⟨ch, hmem, hch⟩
      · rw [hl] at hnil
        cases hnil
      · rw [hl] at hmc
        simp only [List.headD_cons] at hmc
        unfold get_maturity_date_base
        rw [hl]
        show (match MONTH_CODES c'.toUpper with
          | none => none
          | some mo' =>
            match parse_year rest with
            | none => none
            | some yr =>
              if 1 ≤ base_day ∧ base_day ≤ daysInMonth yr mo' then
                some (cal.following ⟨yr, mo', base_day⟩)
              else none) = none
        rw [hmc]
      · rw [hl] at hmem
        simp only [List.tail_cons] at hmem
        have hfalse : rest.all Char.isDigit = false := by
          rw [List.all_eq_false]
          exact ⟨ch, hmem, by simp [hch]⟩
        have hpn : parse_year rest = none := by
          unfold parse_year
          rw [hfalse]
          simp
        unfold get_maturity_date_base
        rw [hl]
        show (match MONTH_CODES c'.toUpper with
          | none => none
          | some mo' =>
            match parse_year rest with
            | none => none
            | some yr =>
              if 1 ≤ base_day ∧ base_day ≤ daysInMonth yr mo' then
                some (cal.following ⟨yr, mo', base_day⟩)
              else none) = none
        cases MONTH_CODES c'.toUpper with
        | none => rfl
        | some mo' =>
          show (match parse_year rest with
            | none => none
            | some yr =>
              if 1 ≤ base_day ∧ base_day ≤ daysInMonth yr mo' then
                some (cal.following ⟨yr, mo', base_day⟩)
              else none) = none
          rw [hpn]
  · intro s bd hbad
    cases hl : s.data with
    | nil =>
      unfold get_maturity_date_base
      rw [hl]
    | cons c' rest =>
      unfold get_maturity_date_base
      rw [hl]
      show (match MONTH_CODES c'.toUpper with
        | none => none
        | some mo' =>
          match parse_year rest with
          | none => none
          | some yr =>
            if 1 ≤ bd ∧ bd ≤ daysInMonth yr mo' then
              some (cal.following ⟨yr, mo', bd⟩)
            else none) = none
      cases MONTH_CODES c'.toUpper with
      | none => rfl
      | some mo' =>
        show (match parse_year rest with
          | none => none
          | some yr =>
            if 1 ≤ bd ∧ bd ≤ daysInMonth yr mo' then
              some (cal.following ⟨yr, mo', bd⟩)
            else none) = none
        cases parse_year rest with
        | none => rfl
        | some yr =>
          show (if 1 ≤ bd ∧ bd ≤ daysInMonth yr mo' then
              some (cal.following ⟨yr, mo', bd⟩)
            else none) = none
          rw [if_neg]
          intro hcond
          have := daysInMonth_le yr mo'
          omega
  · intro s
    unfold get_maturity_date get_maturity_date_base
    cases hl : s.data with
    | nil => rfl
    | cons c' rest =>
      show (match MONTH_CODES c'.toUpper with
        | none => none
        | some mo' =>
          match parse_year rest with
          | none => none
          | some yr => some (cal.following ⟨yr, mo', 1⟩)) =
        (match MONTH_CODES c'.toUpper with
        | none => none
        | some mo' =>
          match parse_year rest with
          | none => none
          | some yr =>
            if 1 ≤ 1 ∧ 1 ≤ daysInMonth yr mo' then
              some (cal.following ⟨yr, mo', 1⟩)
            else none)
      cases MONTH_CODES c'.toUpper with
      | none => rfl
      | some mo' =>
        show (match parse_year rest with
          | none => none
          | some yr => some (cal.following ⟨yr, mo', 1⟩)) =
          (match parse_year rest with
          | none => none
          | some yr =>
            if 1 ≤ 1 ∧ 1 ≤ daysInMonth yr mo' then
              some (cal.following ⟨yr, mo', 1⟩)
            else none)
        cases parse_year rest with
        | none => rfl
        | some yr =>
          show some (cal.following ⟨yr, mo', 1⟩) =
            (if 1 ≤ 1 ∧ 1 ≤ daysInMonth yr mo' then
              some (cal.following ⟨yr, mo', 1⟩)
            else none)
          rw [if_pos ⟨le_refl 1, le_trans (by omega) (daysInMonth_ge yr mo')⟩]

/-- Witness for `maturity_resolver`: code `F26` with base day 15 on the
all-business-days calendar resolves to 2026-01-15 exactly. -/
theorem maturity_resolver_witness :
    get_maturity_date_base 15 ⟨['F', '2', '6']⟩ allBizdaysDate
      = some ⟨2000 + (10 * ('2'.toNat - 48) + ('6'.toNat - 48)), 1, 15⟩ :=
  (maturity_resolver allBizdaysDate 'F' '2' '6' 15 1 rfl rfl rfl ⟨by omega, by omega⟩).2.1 rfl

lemma map_comma_noop (l : List Char) (h : l.contains ',' = false) :
    l.map (fun c => if c == ',' then '.' else c) = l := by
  induction l with
  | nil => rfl
  | cons a t ih =>
    rw [List.contains_cons] at h
    rcases Bool.or_eq_false_iff.mp h with ⟨h1, h2⟩
    rw [List.map_cons, ih h2]
    congr 1
    rw [if_neg]
    intro hc
    rw [beq_iff_eq] at hc
    subst hc
    simp at h1

/-- C9: a cell string whose stripped form contains a period but no comma
keeps the period as a decimal separator: the cleaner parses it directly
(no thousands-separator stripping occurs), so `"1.234"` yields `1.234` and
not `1234`; the period is stripped only when a comma is also present, as in
`"99.889,83" ↦ 99889.83`. -/
theorem clean_numeric_period_decimal (s : String)
    (hdot : (pyStrip s.data).contains '.' = true)
    (hcomma : (pyStrip s.data).contains ',' = false) :
    clean_numeric s = parseDecimalChars (pyStrip s.data)
    ∧ clean_numeric ("1.234") = some ((1234 : ℚ) / 1000)
    ∧ clean_numeric ("1.234") ≠ some (1234 : ℚ)
    ∧ clean_numeric ("99.889,83") = some ((9988983 : ℚ) / 100) := by
  have e1 : clean_numeric ("1.234")
      = some ((1 : ℚ) * ((digitsToNat ['1'] : ℚ)
          + (digitsToNat ['2', '3', '4'] : ℚ) / 10 ^ (3 : ℕ))) := rfl
  have d1 : digitsToNat ['1'] = 1 := rfl
  have d2 : digitsToNat ['2', '3', '4'] = 234 := rfl
  have v1 : clean_numeric ("1.234") = some ((1234 : ℚ) / 1000) := by
    rw [e1, d1, d2]
    norm_num
  have e2 : clean_numeric ("99.889,83")
      = some ((1 : ℚ) * ((digitsToNat ['9', '9', '8', '8', '9'] : ℚ)
          + (digitsToNat ['8', '3'] : ℚ) / 10 ^ (2 : ℕ))) := rfl
  have d3 : digitsToNat ['9', '9', '8', '8', '9'] = 99889 := rfl
  have d4 : digitsToNat ['8', '3'] = 83 := rfl
  have v2 : clean_numeric ("99.889,83") = some ((9988983 : ℚ) / 100) := by
    rw [e2, d3, d4]
    norm_num
  refine ⟨?_, v1, by rw [v1]; norm_num, v2⟩
  unfold clean_numeric
  have h1 : pyStrip s.data ≠ ['-'] := by
    intro he
    rw [he] at hdot
    exact absurd hdot (by decide)
  have h2 : pyStrip s.data ≠ [] := by
    intro he
    rw [he] at hdot
    exact absurd hdot (by decide)
  rw [if_neg (by simp [h1, h2])]
  rw [if_neg (by rw [hdot, hcomma]; simp)]
  show parseDecimalChars
      ((pyStrip s.data).map (fun c => if c == ',' then '.' else c))
    = parseDecimalChars (pyStrip s.data)
  rw [map_comma_noop _ hcomma]

/-- Witness for `clean_numeric_period_decimal` at the input `"1.234"`. -/
theorem clean_numeric_period_decimal_witness :
    clean_numeric ("1.234") = parseDecimalChars (pyStrip ("1.234").data) :=
  (clean_numeric_period_decimal ("1.234") (by decide) (by decide)).1

/-- C6 (the loader's tolerance, and where it breaks): a missing or
invalid-JSON file loads as the empty default store; a flat date-keyed
mapping is accepted and upgraded in memory to the wrapped format; but a
JSON value that is neither shape does not always reset — a non-empty JSON
array (here `[1, 2, 3]`) reaches the legacy-format check's `.keys()` call
and raises `AttributeError` instead of being treated as the empty store. -/
theorem carregar_database_tolerance :
    carregar_database none = .ok defaultDb
    ∧ carregar_database (some (.jobj [("2024-01-02", .jobj [])]))
        = .ok (.jobj [("metadata", .jobj []), ("data", .jobj [("2024-01-02", .jobj [])])])
    ∧ carregar_database (some (.jobj [("metadata", .jobj []), ("data", .jobj [])]))
        = .ok (.jobj [("metadata", .jobj []), ("data", .jobj [])])
    ∧ carregar_database (some (.jobj [("nota", .jstr ("x"))])) = .ok defaultDb
    ∧ carregar_database (some (.jarr [.jnum 1, .jnum 2, .jnum 3]))
        = .error ("AttributeError: object has no attribute keys") := by
  refine ⟨rfl, ?_, ?_, ?_, ?_⟩ <;> rfl

lemma etapa2_isSome_of_db (pfx : String) (api : Except String (List FbContract)) (ds k : ℤ)
    (db : ℤ → Option (Entry (ContractJson ℤ))) (h : (db k).isSome = true) :
    (fallback_etapa2 pfx api ds db k).isSome = true := by
  unfold fallback_etapa2
  cases hdb : db ds with
  | some e => exact h
  | none =>
    by_cases hk : k = ds
    · rw [if_pos hk]
      rfl
    · rw [if_neg hk]
      exact h

lemma etapa2_isSome_at_ds (pfx : String) (api : Except String (List FbContract)) (ds : ℤ)
    (db : ℤ → Option (Entry (ContractJson ℤ))) :
    (fallback_etapa2 pfx api ds db ds).isSome = true := by
  unfold fallback_etapa2
  cases hdb : db ds with
  | some e => rfl
  | none =>
    show (if ds = ds then some (fallback_entry pfx api) else none).isSome = true
    rw [if_pos rfl]
    rfl

lemma fill_eq_of_isSome (cal : BizCalendar ℤ) (hoje k : ℤ)
    (db1 : ℤ → Option (Entry (ContractJson ℤ))) (h : (db1 k).isSome = true) :
    fallback_fill cal hoje db1 k = db1 k := by
  unfold fallback_fill
  cases hdb : db1 k with
  | some e => simp [hdb]
  | none => rw [hdb] at h; cases h

lemma fill_isSome_holiday (cal : BizCalendar ℤ) (hoje k : ℤ)
    (db1 : ℤ → Option (Entry (ContractJson ℤ))) (hbz : cal.isbizday k = false)
    (hw : inWindow DIAS_HISTORICO_FALLBACK hoje k = true) :
    (fallback_fill cal hoje db1 k).isSome = true := by
  unfold fallback_fill
  cases hdb : db1 k with
  | some e => simp [hdb]
  | none => simp [hdb, hbz, hw]

/-- C1 corrected: after a scrape run the set of persisted date keys equals
exactly the trailing 30-day window ending today; after a fallback run the
keys are contained in the trailing 90-day window, and a window date is
guaranteed an entry if it is a non-business day, the attributed target date,
or was already present — but (see `window_invariant_cex`) a missing business
day other than the target is not filled. -/
theorem window_invariant {γ : Type} (calZ : BizCalendar ℤ)
    (acq : ℤ → Except String (List γ)) (hoje k : ℤ) (db : ℤ → Option (Entry γ))
    (calF : BizCalendar ℤ) (pfx : String) (hour minute : ℕ)
    (api : Except String (List FbContract)) (dbF : ℤ → Option (Entry (ContractJson ℤ))) :
    ((run_scrape calZ acq hoje db k).isSome = true
        ↔ inWindow DIAS_HISTORICO_SCRAPE hoje k = true)
    ∧ ((run_fallback calF pfx hoje hour minute api dbF k).isSome = true →
        inWindow DIAS_HISTORICO_FALLBACK hoje k = true)
    ∧ (inWindow DIAS_HISTORICO_FALLBACK hoje k = true →
        (calF.isbizday k = false ∨ k = date_to_save calF hoje hour minute
          ∨ (dbF k).isSome = true) →
        (run_fallback calF pfx hoje hour minute api dbF k).isSome = true) := by
  refine ⟨?_, ?_, ?_⟩
  · unfold run_scrape
    by_cases hw : inWindow DIAS_HISTORICO_SCRAPE hoje k = true
    · rw [if_pos hw]
      cases db k <;> simp [hw]
    · rw [if_neg hw]
      simpa using hw
  · intro h
    by_cases hw : inWindow DIAS_HISTORICO_FALLBACK hoje k = true
    · exact hw
    · exfalso
      unfold run_fallback at h
      rw [if_neg hw] at h
      cases h
  · intro hw hcase
    unfold run_fallback
    rw [if_pos hw]
    rcases hcase with hbz | hds | hdbk
    · by_cases h1 :
        (fallback_etapa2 pfx api (date_to_save calF hoje hour minute) dbF k).isSome = true
      · rw [fill_eq_of_isSome _ _ _ _ h1]
        exact h1
      · exact fill_isSome_holiday _ _ _ _ hbz hw
    · subst hds
      have h1 := etapa2_isSome_at_ds pfx api (date_to_save calF hoje hour minute) dbF
      rw [fill_eq_of_isSome _ _ _ _ h1]
      exact h1
    · have h1 := etapa2_isSome_of_db pfx api (date_to_save calF hoje hour minute) k dbF hdbk
      rw [fill_eq_of_isSome _ _ _ _ h1]
      exact h1

/-- Counterexample to C1 as stated: on the fallback path with an empty
initial store, an all-business-days calendar, today `0` and run time 19:00,
the attributed date is `0`, so the window date `-1` — a business day inside
the trailing 90-day window — has no entry after the run completes. -/
theorem window_invariant_cex :
    inWindow DIAS_HISTORICO_FALLBACK 0 (-1) = true ∧
    run_fallback allBizdaysZ ("DI1") 0 19 0 (.ok []) (fun _ => none) (-1) = none := by
  constructor
  · rfl
  · rfl

/-- Witness for `window_invariant`: on the scrape side, today itself always
has an entry after a run over the empty store. -/
theorem window_invariant_witness :
    (run_scrape allBizdaysZ (fun _ => .ok ([] : List (Entry Empty))) 0 (fun _ => none) 0).isSome
      = true :=
  (window_invariant allBizdaysZ (fun _ => .ok []) 0 0 (fun _ => none) allBizdaysZ ("DI1")
      19 0 (.ok []) (fun _ => none)).1.mpr rfl

/-- C5 corrected: an acquisition that yields no tables (scrape path) or an
empty payload (API path) is recorded with status `erro_coleta` — the same
status used for exceptions — not with a distinct `no_data` status: the
scrape path records the raised no-tables message, the API path the fixed
message "Vazio". -/
theorem no_data_status (calZ : BizCalendar ℤ) (k : ℤ) (calD : BizCalendar Date)
    (dateOf : ℤ → Date) (env : ℤ → Except String (List Table))
    (hbiz : calZ.isbizday k = true) (henv : env k = .ok []) :
    processa_dia calZ (scrape_acq calD dateOf env) k
      = ⟨"erro_coleta", [], some ("No tables found in the HTML.")⟩
    ∧ (∀ pfx, fallback_entry pfx (.ok []) = ⟨"erro_coleta", [], some ("Vazio")⟩)
    ∧ (∀ pfx e, fallback_entry pfx (.error e) = ⟨"erro_coleta", [], some e⟩) := by
  refine ⟨?_, fun _ => rfl, fun _ _ => rfl⟩
  have hacq : scrape_acq calD dateOf env k = .error ("No tables found in the HTML.") := by
    unfold scrape_acq
    rw [henv]
    rfl
  unfold processa_dia
  simp [hbiz, hacq]

/-- Counterexample to C5 as stated: at the empty-payload input the fallback
run writes status `erro_coleta` (collection_error), not a distinct `no_data`
status. -/
theorem no_data_status_cex :
    run_fallback allBizdaysZ ("DI1") 0 19 0 (.ok []) (fun _ => none) 0
      = some ⟨"erro_coleta", [], some ("Vazio")⟩ := by
  rfl

/-- Witness for `no_data_status` on the all-business-days calendars with an
environment that returns no tables. -/
theorem no_data_status_witness :
    processa_dia allBizdaysZ
        (scrape_acq allBizdaysDate (fun _ => ⟨2026, 1, 2⟩) (fun _ => .ok [])) 0
      = ⟨"erro_coleta", [], some ("No tables found in the HTML.")⟩ :=
  (no_data_status allBizdaysZ 0 allBizdaysDate (fun _ => ⟨2026, 1, 2⟩) (fun _ => .ok [])
    rfl rfl).1

/-- C10: on the API fallback path, a `dia_util` Day Entry written with a
non-empty contract list has its contracts sorted in ascending order of
maturity date (`vencimento`). -/
theorem fallback_contracts_sorted (cal : BizCalendar ℤ) (pfx : String) (hoje : ℤ)
    (hour minute : ℕ) (rows : List FbContract) (db : ℤ → Option (Entry (ContractJson ℤ)))
    (hne : rows ≠ [])
    (habs : db (date_to_save cal hoje hour minute) = none)
    (hwin : inWindow DIAS_HISTORICO_FALLBACK hoje (date_to_save cal hoje hour minute) = true) :
    ∃ e, run_fallback cal pfx hoje hour minute (.ok rows) db (date_to_save cal hoje hour minute)
        = some e
      ∧ e.status = "dia_util"
      ∧ e.contratos ≠ []
      ∧ List.Sorted (fun a b : ContractJson ℤ => a.vencimento ≤ b.vencimento) e.contratos := by
  cases rows with
  | nil => exact absurd rfl hne
  | cons c cs =>
    have h2 : fallback_etapa2 pfx (.ok (c :: cs)) (date_to_save cal hoje hour minute) db
          (date_to_save cal hoje hour minute)
        = some (fallback_entry pfx (.ok (c :: cs))) := by
      unfold fallback_etapa2
      rw [habs]
      show (if date_to_save cal hoje hour minute = date_to_save cal hoje hour minute then
          some (fallback_entry pfx (.ok (c :: cs))) else none) = _
      rw [if_pos rfl]
    have h1 : (fallback_etapa2 pfx (.ok (c :: cs)) (date_to_save cal hoje hour minute) db
          (date_to_save cal hoje hour minute)).isSome = true := by
      rw [h2]
      rfl
    refine ⟨fallback_entry pfx (.ok (c :: cs)), ?_, rfl, ?_, ?_⟩
    · unfold run_fallback
      rw [if_pos hwin, fill_eq_of_isSome _ _ _ _ h1, h2]
    · show formatar_dados_para_json pfx (List.insertionSort leMat (c :: cs)) ≠ []
      intro hc
      have hlen : (formatar_dados_para_json pfx (List.insertionSort leMat (c :: cs))).length
          = 0 := by
        rw [hc]
        rfl
      unfold formatar_dados_para_json at hlen
      rw [List.length_map, List.length_insertionSort] at hlen
      simp at hlen
    · show List.Sorted (fun a b : ContractJson ℤ => a.vencimento ≤ b.vencimento)
        (formatar_dados_para_json pfx (List.insertionSort leMat (c :: cs)))
      unfold formatar_dados_para_json
      exact List.Pairwise.map _ (fun a b (h : leMat a b) => h)
        (List.sorted_insertionSort leMat (c :: cs))

/-- Witness for `fallback_contracts_sorted` with two out-of-order contracts
on the all-business-days calendar after the cutoff. -/
theorem fallback_contracts_sorted_witness :
    ∃ e, run_fallback allBizdaysZ ("DI1") 0 19 0
        (.ok [⟨"G26", 5, 1, 1, 0⟩, ⟨"F26", 3, 1, 1, 0⟩]) (fun _ => none)
        (date_to_save allBizdaysZ 0 19 0) = some e
      ∧ e.status = "dia_util"
      ∧ e.contratos ≠ []
      ∧ List.Sorted (fun a b : ContractJson ℤ => a.vencimento ≤ b.vencimento) e.contratos :=
  fallback_contracts_sorted allBizdaysZ ("DI1") 0 19 0
    [⟨"G26", 5, 1, 1, 0⟩, ⟨"F26", 3, 1, 1, 0⟩] (fun _ => none) (by simp) rfl rfl

lemma calculate_ok_iff (cal : BizCalendar Date) (trade : Date) (ct : CombinedTable)
    (out : List ScrapeContract) (h : calculate_di1_rates cal trade ct = .ok out) :
    ∃ idx, ct.headers.findIdx? (fun h => stripUpper h == "AJUSTE") = some idx ∧
      out = ct.dataRows.filterMap
        (fun row => calc_row cal trade (row.headD ("")) (row.getD idx (""))) := by
  unfold calculate_di1_rates at h
  revert h
  cases hfi : ct.headers.findIdx? (fun h => stripUpper h == "AJUSTE") with
  | none => exact fun h => Except.noConfusion h
  | some idx => exact fun h => ⟨idx, rfl, (Except.ok.inj h).symm⟩

/-- C7: every row of the aligned table that survives `calculate_di1_rates`
carries a strictly positive business-day count `N` and the annualised rate
`(100000 / P) ^ (252 / N) − 1`; rows with unresolved maturity, non-numeric
price, or `N ≤ 0` are excluded from the output. -/
theorem rate_engine_rows (cal : BizCalendar Date) (trade : Date) (ct : CombinedTable)
    (out : List ScrapeContract) (hout : calculate_di1_rates cal trade ct = .ok out) :
    (∀ sc ∈ out, 0 < sc.dias_uteis_n ∧
        sc.taxa_anual
          = (100000 / (sc.ajuste_num : ℝ)) ^ ((252 : ℝ) / (sc.dias_uteis_n : ℝ)) - 1)
    ∧ (∀ v a : String,
        (get_maturity_date v cal = none ∨ clean_numeric a = none ∨
          (∀ md, get_maturity_date v cal = some md → cal.bizdays_count trade md ≤ 0)) →
        calc_row cal trade v a = none) := by
  constructor
  · intro sc hsc
    obtain ⟨idx, hfi, hrows⟩ := calculate_ok_iff cal trade ct out hout
    rw [hrows] at hsc
    rcases List.mem_filterMap.mp hsc with ⟨row, hrow, hf⟩
    unfold calc_row at hf
    cases hmd : get_maturity_date (row.headD ("")) cal with
    | none =>
      rw [hmd] at hf
      exact Option.noConfusion hf
    | some md =>
      rw [hmd] at hf
      cases hcn : clean_numeric (row.getD idx ("")) with
      | none =>
        rw [hcn] at hf
        exact Option.noConfusion hf
      | some pu =>
        rw [hcn] at hf
        have hf' : (if pu < 0 then none
            else if 0 < cal.bizdays_count trade md then
              some (⟨row.headD (""), pu, trade, md, cal.bizdays_count trade md,
                taxa_from_price (pu : ℚ) (cal.bizdays_count trade md)⟩ : ScrapeContract)
            else none) = some sc := hf
        split_ifs at hf' with hp hN
        obtain rfl := Option.some.inj hf'
        exact ⟨hN, rfl⟩
  · intro v a hbad
    unfold calc_row
    rcases hbad with h | h | h
    · rw [h]
    · cases hmd : get_maturity_date v cal with
      | none => rfl
      | some md =>
        show (match clean_numeric a with
          | none => none
          | some pu =>
            if pu < 0 then none
            else if 0 < cal.bizdays_count trade md then
              some (⟨v, pu, trade, md, cal.bizdays_count trade md,
                taxa_from_price (pu : ℚ) (cal.bizdays_count trade md)⟩ : ScrapeContract)
            else none) = none
        rw [h]
    · cases hmd : get_maturity_date v cal with
      | none => rfl
      | some md =>
        have hN := h md hmd
        show (match clean_numeric a with
          | none => none
          | some pu =>
            if pu < 0 then none
            else if 0 < cal.bizdays_count trade md then
              some (⟨v, pu, trade, md, cal.bizdays_count trade md,
                taxa_from_price (pu : ℚ) (cal.bizdays_count trade md)⟩ : ScrapeContract)
            else none) = none
        cases hcn : clean_numeric a with
        | none => rfl
        | some pu =>
          show (if pu < 0 then none
            else if 0 < cal.bizdays_count trade md then
              some (⟨v, pu, trade, md, cal.bizdays_count trade md,
                taxa_from_price (pu : ℚ) (cal.bizdays_count trade md)⟩ : ScrapeContract)
            else none) = none
          by_cases hp : pu < 0
          · rw [if_pos hp]
          · rw [if_neg hp, if_neg (by omega)]

/-- Witness for `rate_engine_rows`: an unresolvable maturity code is
excluded by `calc_row`. -/
theorem rate_engine_rows_witness :
    calc_row allBizdaysDate ⟨2026, 1, 2⟩ ("A26") ("100,5") = none :=
  (rate_engine_rows allBizdaysDate ⟨2026, 1, 2⟩ ⟨["VENCTO", "AJUSTE"], []⟩ [] rfl).2
    ("A26") ("100,5") (Or.inl rfl)

/-! ### The fallback scan's selection order (claim C8) -/

/-- The candidate pairs of the fallback scan in its generation order: for
each maturity candidate in index order, every price candidate in index order
that passes the acceptance test. -/
def scan_pairs_all (tables : List Table) : List (ℕ × ℕ) :=
  (vencto_idxs tables).flatMap (fun i =>
    (ajuste_idxs tables).filterMap (fun j =>
      if pair_ok tables i j then some ((i, j)) else none))

/-- A pair of indices pointing at a maturity-code block and a
settlement-price block with equal non-zero row counts. -/
def matchingPair (tables : List Table) (p : ℕ × ℕ) : Prop :=
  ∃ tv ta, tables[p.1]? = some tv ∧ tables[p.2]? = some ta
    ∧ looks_like_vencto tv = true ∧ looks_like_ajuste_block ta = true
    ∧ tv.nrows = ta.nrows ∧ tv.nrows ≠ 0

lemma findSome?_eq_head?_filterMap {α β : Type} (f : α → Option β) (l : List α) :
    l.findSome? f = (l.filterMap f).head? := by
  induction l with
  | nil => rfl
  | cons a t ih =>
    rw [List.findSome?_cons, List.filterMap_cons]
    cases hfa : f a with
    | some b => rfl
    | none => exact ih

lemma find?_map_eq_head? {α β : Type} (q : α → Bool) (g : α → β) (l : List α) :
    (l.find? q).map g = (l.filterMap (fun x => if q x then some (g x) else none)).head? := by
  induction l with
  | nil => rfl
  | cons a t ih =>
    cases hq : q a with
    | true =>
      rw [List.find?_cons_of_pos _ hq, List.filterMap_cons, if_pos hq]
      rfl
    | false =>
      rw [List.find?_cons_of_neg _ (by simp [hq]), List.filterMap_cons,
        if_neg (by simp [hq])]
      exact ih

lemma findSome?_head?_flatMap {α β : Type} (g : α → List β) (l : List α) :
    l.findSome? (fun a => (g a).head?) = (l.flatMap g).head? := by
  induction l with
  | nil => rfl
  | cons a t ih =>
    rw [List.findSome?_cons, List.flatMap_cons, List.head?_append]
    cases hga : (g a).head? with
    | some b => rfl
    | none =>
      show t.findSome? (fun a => (g a).head?) = (t.flatMap g).head?
      exact ih

lemma scan_pair_eq_head? (tables : List Table) :
    scan_pair tables = (scan_pairs_all tables).head? := by
  unfold scan_pair scan_pairs_all
  have h1 : (fun i => ((ajuste_idxs tables).find? (fun j => pair_ok tables i j)).map
        (fun j => (i, j)))
      = (fun i => ((ajuste_idxs tables).filterMap
          (fun j => if pair_ok tables i j then some ((i, j)) else none)).head?) :=
    funext (fun i => find?_map_eq_head? _ _ _)
  rw [h1, findSome?_head?_flatMap]

lemma mem_vencto_idxs (tables : List Table) (i : ℕ) :
    i ∈ vencto_idxs tables ↔ ∃ t, tables[i]? = some t ∧ looks_like_vencto t = true := by
  unfold vencto_idxs
  simp only [List.mem_map, List.mem_filter]
  constructor
  · rintro ⟨⟨i', t⟩, ⟨hmem, hlook⟩, rfl⟩
    exact ⟨t, List.mk_mem_enum_iff_getElem?.mp hmem, hlook⟩
  · rintro ⟨t, hget, hlook⟩
    exact ⟨(i, t), ⟨List.mk_mem_enum_iff_getElem?.mpr hget, hlook⟩, rfl⟩

lemma mem_ajuste_idxs (tables : List Table) (j : ℕ) :
    j ∈ ajuste_idxs tables ↔ ∃ t, tables[j]? = some t ∧ looks_like_ajuste_block t = true := by
  unfold ajuste_idxs
  simp only [List.mem_map, List.mem_filter]
  constructor
  · rintro ⟨⟨j', t⟩, ⟨hmem, hlook⟩, rfl⟩
    exact ⟨t, List.mk_mem_enum_iff_getElem?.mp hmem, hlook⟩
  · rintro ⟨t, hget, hlook⟩
    exact ⟨(j, t), ⟨List.mk_mem_enum_iff_getElem?.mpr hget, hlook⟩, rfl⟩

lemma pair_ok_iff (tables : List Table) (i j : ℕ) (tv ta : Table)
    (hv : tables[i]? = some tv) (ha : tables[j]? = some ta) :
    pair_ok tables i j = true ↔ (tv.nrows = ta.nrows ∧ tv.nrows ≠ 0) := by
  unfold pair_ok
  have hgv : tables.getD i ⟨[]⟩ = tv := by
    rw [List.getD_eq_getElem?_getD, hv]
    rfl
  have hga : tables.getD j ⟨[]⟩ = ta := by
    rw [List.getD_eq_getElem?_getD, ha]
    rfl
  rw [hgv, hga]
  simp [Bool.and_eq_true, beq_iff_eq, bne_iff_ne]

lemma mem_scan_pairs_all (tables : List Table) (p : ℕ × ℕ) :
    p ∈ scan_pairs_all tables ↔ matchingPair tables p := by
  unfold scan_pairs_all matchingPair
  rw [List.mem_flatMap]
  constructor
  · rintro ⟨i, hi, hp⟩
    rcases List.mem_filterMap.mp hp with ⟨j, hj, hij⟩
    by_cases hok : pair_ok tables i j = true
    · rw [if_pos hok] at hij
      obtain rfl := Option.some.inj hij
      rcases (mem_vencto_idxs tables i).mp hi with ⟨tv, hv, hlv⟩
      rcases (mem_ajuste_idxs tables j).mp hj with ⟨ta, ha, hla⟩
      rcases (pair_ok_iff tables i j tv ta hv ha).mp hok with ⟨hrows, hnz⟩
      exact ⟨tv, ta, hv, ha, hlv, hla, hrows, hnz⟩
    · rw [if_neg hok] at hij
      exact Option.noConfusion hij
  · rintro ⟨tv, ta, hv, ha, hlv, hla, hrows, hnz⟩
    refine ⟨p.1, (mem_vencto_idxs tables p.1).mpr ⟨tv, hv, hlv⟩, ?_⟩
    apply List.mem_filterMap.mpr
    refine ⟨p.2, (mem_ajuste_idxs tables p.2).mpr ⟨ta, ha, hla⟩, ?_⟩
    rw [if_pos ((pair_ok_iff tables p.1 p.2 tv ta hv ha).mpr ⟨hrows, hnz⟩)]

/-- C8 corrected: when the positional guess fails, the fallback scan accepts
the first pair in nested-scan order — the head of the lexicographically
generated candidate list (no adjacency preference is applied) — where the
candidate list contains exactly the pairs of a maturity-code block and a
settlement-price block with equal non-zero row counts; and the scan fails
with the observed table shapes exactly when no such pair exists.  Every
returned pair is such a matching pair. -/
theorem fallback_scan_order (tables : List Table)
    (hpos : positional_pair tables = none) :
    scan_pair tables = (scan_pairs_all tables).head?
    ∧ (∀ p, p ∈ scan_pairs_all tables ↔ matchingPair tables p)
    ∧ (locate_pair tables = .error (tables.map Table.shape) ↔ ∀ p, ¬matchingPair tables p)
    ∧ (∀ p, locate_pair tables = .ok p → matchingPair tables p) := by
  refine ⟨scan_pair_eq_head? tables, mem_scan_pairs_all tables, ?_, ?_⟩
  · unfold locate_pair
    rw [hpos]
    show (match scan_pair tables with
      | some p => Except.ok p
      | none => Except.error (tables.map Table.shape))
        = .error (tables.map Table.shape) ↔ ∀ p, ¬matchingPair tables p
    cases hs : scan_pair tables with
    | some q =>
      constructor
      · intro h
        exact Except.noConfusion h
      · intro hno
        exfalso
        rw [scan_pair_eq_head? tables] at hs
        have hq : q ∈ scan_pairs_all tables := by
          cases hl : scan_pairs_all tables with
          | nil =>
            rw [hl] at hs
            cases hs
          | cons x xs =>
            rw [hl] at hs
            obtain rfl := Option.some.inj hs
            exact List.mem_cons_self _ _
        exact hno q ((mem_scan_pairs_all tables q).mp hq)
    | none =>
      constructor
      · intro _ p hmp
        have hmem : p ∈ scan_pairs_all tables := (mem_scan_pairs_all tables p).mpr hmp
        rw [scan_pair_eq_head? tables] at hs
        cases hl : scan_pairs_all tables with
        | nil =>
          rw [hl] at hmem
          cases hmem
        | cons x xs =>
          rw [hl] at hs
          cases hs
      · intro _
        rfl
  · intro p
    unfold locate_pair
    rw [hpos]
    show (match scan_pair tables with
      | some q => Except.ok q
      | none => Except.error (tables.map Table.shape)) = .ok p → matchingPair tables p
    cases hs : scan_pair tables with
    | none =>
      intro hp
      exact Except.noConfusion hp
    | some q =>
      intro hp
      obtain rfl := Except.ok.inj hp
      rw [scan_pair_eq_head? tables] at hs
      have hmem : q ∈ scan_pairs_all tables := by
        cases hl : scan_pairs_all tables with
        | nil =>
          rw [hl] at hs
          cases hs
        | cons x xs =>
          rw [hl] at hs
          obtain rfl := Option.some.inj hs
          exact List.mem_cons_self _ _
      exact (mem_scan_pairs_all tables q).mp hmem

/-- An 11-column, 2-row settlement-price block. -/
def tA : Table :=
  ⟨[["AJUSTE ANTERIOR", "", "", "", "", "", "", "", "", "", ""],
    ["F26", "1", "2", "3", "4", "5", "6", "7", "99.889,83", "9", "10"]]⟩

/-- An unrelated 1-column block. -/
def tJ : Table := ⟨[["X"]]⟩

/-- A 1-column, 2-row maturity-code block. -/
def tV : Table := ⟨[["VENCTO"], ["F26"]]⟩

/-- A table list on which the positional guess fails, with the maturity
candidate at index 2 and price candidates at indices 0 and 3 (both with
matching row counts). -/
def cexTables : List Table := [tA, tJ, tV, tA]

/-- Counterexample to C8 as stated: with price candidates at indices 0 and 3
for the maturity candidate at index 2, the adjacency-preferred pair would be
`(2, 3)`, but the scan accepts `(2, 0)` — the first price candidate in index
order — so no `j == i + 1` preference is applied. -/
theorem fallback_scan_order_cex :
    positional_pair cexTables = none
    ∧ locate_pair cexTables = .ok ((2, 0))
    ∧ looks_like_vencto tV = true
    ∧ looks_like_ajuste_block tA = true
    ∧ cexTables[3]? = some tA
    ∧ tV.nrows = tA.nrows
    ∧ (0 : ℕ) ≠ 2 + 1 := by
  refine ⟨rfl, rfl, rfl, rfl, rfl, rfl, by omega⟩

/-- Witness for `fallback_scan_order` on the counterexample tables. -/
theorem fallback_scan_order_witness :
    scan_pair cexTables = (scan_pairs_all cexTables).head? :=
  (fallback_scan_order cexTables rfl).1

end ColetaDI
